import Mathlib

/-!
Verification of the ClipMindAI clipboard-monitoring core.

The definitions below are a shallow embedding of the Rust sources
`src-tauri/src/clipboard/content_detector.rs`,
`src-tauri/src/clipboard/monitor.rs` and
`src-tauri/src/clipboard/types.rs`.

Modelling conventions:
- Rust `String` / `&str` values are `List Char`; `str::len` (UTF-8 byte
  count) is `rustLen`, which measures the UTF-8 encoding of the char list.
- Regex `is_match` (anchored patterns) is modelled as the existence of a
  decomposition of the string into the pattern's pieces, enumerated with
  `splits`; `\d` is modelled as an ASCII digit (the repository only relies
  on ASCII digits), `\s` as the full Unicode White_Space set which is what
  the regex crate uses, and `\p{Sc}` as the Unicode Sc (currency symbol)
  set.
- `str::to_lowercase` is modelled as ASCII lowercasing: every keyword it is
  compared against in the source is pure ASCII.
- The f64 comparison `paren_ratio > 0.02` is modelled as the exact rational
  comparison `50 * paren_count > total_chars`.
- Effects are made explicit: the clipboard read of cycle attempt `i` is an
  oracle `Nat → Option (List Char)`, `thread::sleep` is recorded in a trace,
  `Utc::now` and elapsed-time measurements are parameters, and the Win32
  calls of the observer thread are an `OsEnv` of outcomes.
-/

/-! ## Character classes (content_detector.rs) -/

/-- Unicode White_Space, the set matched by Rust `char::is_whitespace`
and by `\s` in the regex crate. -/
def rustIsWhitespace (c : Char) : Bool :=
  let n := c.toNat
  (0x9 ≤ n && n ≤ 0xD) || n == 0x20 || n == 0x85 || n == 0xA0 ||
  n == 0x1680 || (0x2000 ≤ n && n ≤ 0x200A) || n == 0x2028 || n == 0x2029 ||
  n == 0x202F || n == 0x205F || n == 0x3000

/-- Rust `str::trim`: drop leading and trailing whitespace. -/
def rustTrim (cs : List Char) : List Char :=
  ((cs.dropWhile rustIsWhitespace).reverse.dropWhile rustIsWhitespace).reverse

/-- ASCII digit, the model of regex `\d` and of `char::is_ascii_digit`. -/
def isDigit (c : Char) : Bool := '0' ≤ c && c ≤ '9'

/-- ASCII letter, regex `[a-zA-Z]`. -/
def isAlphaChar (c : Char) : Bool := ('a' ≤ c && c ≤ 'z') || ('A' ≤ c && c ≤ 'Z')

/-- Unicode category Sc (currency symbols), regex `\p{Sc}`. -/
def isScCurrency (c : Char) : Bool :=
  let n := c.toNat
  n == 0x24 || (0xA2 ≤ n && n ≤ 0xA5) || n == 0x58F || n == 0x60B ||
  n == 0x7FE || n == 0x7FF || n == 0x9F2 || n == 0x9F3 || n == 0x9FB ||
  n == 0xAF1 || n == 0xBF9 || n == 0xE3F || n == 0x17DB ||
  (0x20A0 ≤ n && n ≤ 0x20C0) || n == 0xA838 || n == 0xFDFC || n == 0xFE69 ||
  n == 0xFF04 || n == 0xFFE0 || n == 0xFFE1 || n == 0xFFE5 || n == 0xFFE6 ||
  (0x11FDD ≤ n && n ≤ 0x11FE0) || n == 0x1E2FF || n == 0x1ECB0

/-- ASCII lowercasing of one char, the model of `str::to_lowercase`. -/
def asciiLower (c : Char) : Char :=
  if 'A' ≤ c && c ≤ 'Z' then Char.ofNat (c.toNat + 32) else c

/-! ## A tiny matching kit -/

/-- All ways to cut a list into a left part and a right part. -/
def splits : List Char → List (List Char × List Char)
  | [] => [([], [])]
  | c :: cs => ([], c :: cs) :: (splits cs).map (fun p => (c :: p.1, p.2))

/-- Substring test: Rust `str::contains` with a string pattern. -/
def containsSub (hay need : List Char) : Bool :=
  (List.range (hay.length + 1)).any (fun i => need.isPrefixOf (hay.drop i))

/-- Case-insensitive (ASCII) removal of a literal pattern from the head
of a list; returns the rest on success. -/
def stripCi : List Char → List Char → Option (List Char)
  | [], l => some l
  | _ :: _, [] => none
  | p :: ps, c :: cs => if asciiLower c == asciiLower p then stripCi ps cs else none

/-! ## ContentDetector (content_detector.rs) -/

/-- The eight basic categories of `types.rs`. -/
inductive BasicContentType where
  | Url
  | Email
  | Phone
  | Financial
  | DateTime
  | Code
  | Address
  | PlainText
deriving DecidableEq, Repr

/-- Regex `[a-zA-Z0-9.-]`, the host alphabet of `URL_REGEX`. -/
def urlHostChar (c : Char) : Bool := isAlphaChar c || isDigit c || c == '.' || c == '-'

/-- Host piece of `URL_REGEX`: `[a-zA-Z0-9.-]+\.[a-zA-Z]{2,}`. -/
def matchUrlHost (l : List Char) : Bool :=
  (splits l).any fun p =>
    !p.1.isEmpty && p.1.all urlHostChar &&
    (match p.2 with
     | '.' :: h2 => decide (2 ≤ h2.length) && h2.all isAlphaChar
     | _ => false)

/-- Optional port of `URL_REGEX`: `(:[0-9]+)?`. -/
def urlPortOk : List Char → Bool
  | [] => true
  | ':' :: ds => !ds.isEmpty && ds.all isDigit
  | _ => false

/-- Optional path of `URL_REGEX`: `(/.*)?`. -/
def urlPathOk : List Char → Bool
  | [] => true
  | '/' :: _ => true
  | _ => false

/-- Port-then-path tail of `URL_REGEX`. -/
def matchUrlPortPath (l : List Char) : Bool :=
  (splits l).any fun p => urlPortOk p.1 && urlPathOk p.2

/-- Optional scheme of `URL_REGEX`: `(https?://|ftp://)?`. -/
def urlSchemes : List (List Char) :=
  [ [], "http://".data, "https://".data, "ftp://".data ]

/-- `ContentDetector::is_url`: anchored match of
`^(https?://|ftp://)?([a-zA-Z0-9.-]+\.[a-zA-Z]\x7b2,\x7d)(:[0-9]+)?(/.*)?$`. -/
def is_url (l : List Char) : Bool :=
  urlSchemes.any fun sch =>
    sch.isPrefixOf l &&
    ((splits (l.drop sch.length)).any fun hp =>
      matchUrlHost hp.1 && matchUrlPortPath hp.2)

/-- Regex `[^\s@]`, the email token alphabet. -/
def emailChar (c : Char) : Bool := !rustIsWhitespace c && c != '@'

/-- `ContentDetector::is_email`: anchored match of `^[^\s@]+@[^\s@]+\.[^\s@]+$`. -/
def is_email (l : List Char) : Bool :=
  (splits l).any fun p =>
    !p.1.isEmpty && p.1.all emailChar &&
    (match p.2 with
     | '@' :: dom =>
        (splits dom).any fun q =>
          !q.1.isEmpty && q.1.all emailChar &&
          (match q.2 with
           | '.' :: tld => !tld.isEmpty && tld.all emailChar
           | _ => false)
     | _ => false)

/-- `ContentDetector::is_phone`: 7–15 ASCII digits, no colon, and only
digits, `+`, `-`, space, `(`, `)`. -/
def is_phone (l : List Char) : Bool :=
  let digits := (l.filter isDigit).length
  if digits < 7 || digits > 15 then false
  else if l.contains ':' then false
  else l.all fun c => isDigit c || c == '+' || c == '-' || c == ' ' || c == '(' || c == ')'

/-- Optional decimal tail of the financial amount: `(?:[.]\d\x7b1,2\x7d)?`. -/
def amountTail (l : List Char) : Bool :=
  match l with
  | [] => true
  | '.' :: ds => (ds.length == 1 || ds.length == 2) && ds.all isDigit
  | _ => false

/-- Financial amount: `\d\x7b1,3\x7d(?:[,\d]\x7b0,12\x7d)(?:[.]\d\x7b1,2\x7d)?`. -/
def matchAmount (l : List Char) : Bool :=
  (splits l).any fun p =>
    decide (1 ≤ p.1.length) && decide (p.1.length ≤ 3) && p.1.all isDigit &&
    ((splits p.2).any fun q =>
      decide (q.1.length ≤ 12) && q.1.all (fun c => c == ',' || isDigit c) &&
      amountTail q.2)

/-- `SYMBOL_REGEX`: `^\s*(?:\p{Sc})\s*AMOUNT\s*$` (the `x` flag removes the
literal whitespace of the pattern). -/
def matchSymbolFinancial (l : List Char) : Bool :=
  (splits l).any fun p =>
    p.1.all rustIsWhitespace &&
    (match p.2 with
     | c :: r2 =>
        isScCurrency c &&
        ((splits r2).any fun q =>
          q.1.all rustIsWhitespace &&
          ((splits q.2).any fun r =>
            matchAmount r.1 && r.2.all rustIsWhitespace))
     | [] => false)

/-- Currency codes allowed before the amount in `CODE_REGEX`
(`USD|EUR|JPY|TWD|NTD|NT\$?`, case-insensitive). -/
def currencyCodesBefore : List (List Char) :=
  [ "usd".data, "eur".data, "jpy".data, "twd".data, "ntd".data, "nt$".data, "nt".data ]

/-- Currency codes allowed after the amount in `CODE_REGEX`
(`USD|EUR|JPY|TWD|NTD|NT`, case-insensitive). -/
def currencyCodesAfter : List (List Char) :=
  [ "usd".data, "eur".data, "jpy".data, "twd".data, "ntd".data, "nt".data ]

/-- First alternative of `CODE_REGEX`: `^\s*CODE\s*AMOUNT\s*$`. -/
def matchCodeFinancialPre (l : List Char) : Bool :=
  (splits l).any fun p =>
    p.1.all rustIsWhitespace &&
    currencyCodesBefore.any fun code =>
      match stripCi code p.2 with
      | some r2 =>
          (splits r2).any fun q =>
            q.1.all rustIsWhitespace &&
            ((splits q.2).any fun r =>
              matchAmount r.1 && r.2.all rustIsWhitespace)
      | none => false

/-- Second alternative of `CODE_REGEX`: `^\s*AMOUNT\s*CODE\s*$`. -/
def matchCodeFinancialPost (l : List Char) : Bool :=
  (splits l).any fun p =>
    p.1.all rustIsWhitespace &&
    ((splits p.2).any fun q =>
      matchAmount q.1 &&
      ((splits q.2).any fun r =>
        r.1.all rustIsWhitespace &&
        currencyCodesAfter.any fun code =>
          match stripCi code r.2 with
          | some r4 => r4.all rustIsWhitespace
          | none => false))

/-- `ContentDetector::is_financial`: `SYMBOL_REGEX` or `CODE_REGEX`. -/
def is_financial (l : List Char) : Bool :=
  matchSymbolFinancial l || matchCodeFinancialPre l || matchCodeFinancialPost l

/-- The date separator class of `DATE_REGEX`: `-` or `/`. -/
def dateSep (c : Char) : Bool := c == '-' || c == '/'

/-- Regex `(?:19|20)\d\x7b2\x7d`, the year. -/
def yearOk (a b c d : Char) : Bool :=
  ((a == '1' && b == '9') || (a == '2' && b == '0')) && isDigit c && isDigit d

/-- Regex `0[1-9]|1[0-2]`, the month. -/
def monthOk (a b : Char) : Bool :=
  (a == '0' && isDigit b && !(b == '0')) || (a == '1' && (b == '0' || b == '1' || b == '2'))

/-- Regex `0[1-9]|[12]\d|3[01]`, the day. -/
def dayOk (a b : Char) : Bool :=
  (a == '0' && isDigit b && !(b == '0')) || ((a == '1' || a == '2') && isDigit b) ||
  (a == '3' && (b == '0' || b == '1'))

/-- Regex `[01]\d|2[0-3]`, the hour. -/
def hourOk (a b : Char) : Bool :=
  ((a == '0' || a == '1') && isDigit b) ||
  (a == '2' && (b == '0' || b == '1' || b == '2' || b == '3'))

/-- Regex `[0-5]\d`, minutes and seconds. -/
def minSecOk (a b : Char) : Bool :=
  (a == '0' || a == '1' || a == '2' || a == '3' || a == '4' || a == '5') && isDigit b

/-- `ContentDetector::is_datetime`: anchored alternation of
`YYYY-MM-DD`/`YYYY/MM/DD`, `DD-MM-YYYY`, `MM-DD-YYYY` (each separator
independently `-` or `/`) and `HH:MM(:SS)?`. The three date shapes are
exactly 10 chars and the time shapes 5 or 8 chars. -/
def is_datetime (l : List Char) : Bool :=
  match l with
  | [p0, p1, p2, p3, p4, p5, p6, p7, p8, p9] =>
      (yearOk p0 p1 p2 p3 && dateSep p4 && monthOk p5 p6 && dateSep p7 && dayOk p8 p9) ||
      (dayOk p0 p1 && dateSep p2 && monthOk p3 p4 && dateSep p5 && yearOk p6 p7 p8 p9) ||
      (monthOk p0 p1 && dateSep p2 && dayOk p3 p4 && dateSep p5 && yearOk p6 p7 p8 p9)
  | [p0, p1, c1, p3, p4] => c1 == ':' && hourOk p0 p1 && minSecOk p3 p4
  | [p0, p1, c1, p3, p4, c2, p6, p7] =>
      c1 == ':' && c2 == ':' && hourOk p0 p1 && minSecOk p3 p4 && minSecOk p6 p7
  | _ => false

/-- The code keyword list of `is_code`, verbatim from the source (note
that `System.out` keeps its capitals there even though it is compared
against lowercased content). -/
def codeKeywords : List (List Char) :=
  [ "def ".data, "function ".data, "class ".data, "import ".data,
    "#include".data, "console.log".data, "println".data, "System.out".data,
    "cout <<".data, "<?php".data, "#!/".data, "<script>".data,
    "public class".data, "private ".data, "void ".data ]

/-- The SQL keyword list of `is_code`. -/
def sqlKeywords : List (List Char) :=
  [ "select ".data, "from ".data, "where ".data ]

/-- Rust `str::lines().count()`: number of `\n` plus one for a nonempty
final fragment. -/
def rustLinesCount (l : List Char) : Nat :=
  match l with
  | [] => 0
  | _ =>
      (l.filter (fun c => c == '\n')).length +
      (if l.getLast? == some '\n' then 0 else 1)

/-- `ContentDetector::is_code`: keyword or SQL-keyword hit on the
lowercased content, or at least 5 lines with a parenthesis ratio above
0.02 (exact rational model of the f64 comparison). -/
def is_code (l : List Char) : Bool :=
  let lower := l.map asciiLower
  let hasKeywords := codeKeywords.any (fun kw => containsSub lower kw)
  let hasSql := sqlKeywords.any (fun kw => containsSub lower kw)
  let multipleLines := decide (5 ≤ rustLinesCount l)
  let totalChars := max l.length 1
  let parenCount := (l.filter (fun c => c == '(' || c == ')')).length
  hasKeywords || hasSql || (multipleLines && decide (50 * parenCount > totalChars))

/-- The address keyword list of `is_address`. -/
def addressKeywords : List (List Char) :=
  [ "街".data, "路".data, "巷".data, "弄".data, "號".data,
    "樓".data, "室".data, "市".data, "縣".data, "段".data ]

/-- `ContentDetector::is_address`: at least two of the address keywords
occur in the content. -/
def is_address (l : List Char) : Bool :=
  decide (2 ≤ (addressKeywords.filter (fun kw => containsSub l kw)).length)

/-- `ContentDetector::detect`: trim, then try the rules in source order,
first match wins, `PlainText` as the default. -/
def detect (content : List Char) : BasicContentType :=
  let c := rustTrim content
  if is_url c then BasicContentType.Url
  else if is_email c then BasicContentType.Email
  else if is_financial c then BasicContentType.Financial
  else if is_datetime c then BasicContentType.DateTime
  else if is_phone c then BasicContentType.Phone
  else if is_code c then BasicContentType.Code
  else if is_address c then BasicContentType.Address
  else BasicContentType.PlainText

/-- The ordered rule table of the spec (§4.3): URL, Email, Financial,
DateTime, Phone, Code, Address. -/
def classifierRules : List ((List Char → Bool) × BasicContentType) :=
  [ (is_url, BasicContentType.Url), (is_email, BasicContentType.Email),
    (is_financial, BasicContentType.Financial), (is_datetime, BasicContentType.DateTime),
    (is_phone, BasicContentType.Phone), (is_code, BasicContentType.Code),
    (is_address, BasicContentType.Address) ]

/-- Generic first-match evaluation of an ordered rule table. -/
def firstMatchGo : List ((List Char → Bool) × BasicContentType) → List Char → BasicContentType
  | [], _ => BasicContentType.PlainText
  | r :: rs, c => if r.1 c then r.2 else firstMatchGo rs c

/-- Modelled from the spec's words (§4.3): classify the trimmed content by
testing the rules of `classifierRules` in order, first match wins,
`PlainText` as default. Compared with `detect`, which is translated from
the source. -/
def firstMatchSpec (content : List Char) : BasicContentType :=
  firstMatchGo classifierRules (rustTrim content)

/-! ## ClipboardEvent and content_hash (types.rs) -/

/-- UTF-8 encoding of one scalar value, as a list of byte values. -/
def utf8CharBytes (c : Char) : List Nat :=
  let n := c.toNat
  if n < 0x80 then [ n ]
  else if n < 0x800 then [ 0xC0 + n / 0x40, 0x80 + n % 0x40 ]
  else if n < 0x10000 then [ 0xE0 + n / 0x1000, 0x80 + n / 0x40 % 0x40, 0x80 + n % 0x40 ]
  else [ 0xF0 + n / 0x40000, 0x80 + n / 0x1000 % 0x40, 0x80 + n / 0x40 % 0x40, 0x80 + n % 0x40 ]

/-- Rust `str::len`: the UTF-8 byte length of the string (not the number
of chars). -/
def rustLen (cs : List Char) : Nat := ((cs.map utf8CharBytes).flatten).length

/-- 64-bit wrapping addition. -/
def wadd (a b : Nat) : Nat := (a + b) % 2 ^ 64

/-- Bitwise xor (stays below `2 ^ 64` on such inputs). -/
def wxor (a b : Nat) : Nat := Nat.xor a b

/-- 64-bit left rotation by `r` (for `0 < r < 64` and `a < 2 ^ 64`). -/
def rotl (a r : Nat) : Nat := (a * 2 ^ r) % 2 ^ 64 + a / 2 ^ (64 - r)

/-- The four 64-bit words of the SipHash state. -/
structure SipState where
  v0 : Nat
  v1 : Nat
  v2 : Nat
  v3 : Nat

/-- One SipRound. -/
def sipRound (s : SipState) : SipState :=
  let v0 := wadd s.v0 s.v1
  let v1 := rotl s.v1 13
  let v1 := wxor v1 v0
  let v0 := rotl v0 32
  let v2 := wadd s.v2 s.v3
  let v3 := rotl s.v3 16
  let v3 := wxor v3 v2
  let v0 := wadd v0 v3
  let v3 := rotl v3 21
  let v3 := wxor v3 v0
  let v2 := wadd v2 v1
  let v1 := rotl v1 17
  let v1 := wxor v1 v2
  let v2 := rotl v2 32
  ⟨v0, v1, v2, v3⟩

/-- Compression of one 64-bit message word with c = 1 round (SipHash-1-3). -/
def sipCompress (s : SipState) (m : Nat) : SipState :=
  let s1 : SipState := ⟨s.v0, s.v1, s.v2, wxor s.v3 m⟩
  let s2 := sipRound s1
  ⟨wxor s2.v0 m, s2.v1, s2.v2, s2.v3⟩

/-- Little-endian word value of a byte list. -/
def leWordVal (bs : List Nat) : Nat := bs.foldr (fun b acc => b + 256 * acc) 0

/-- SipHash-1-3 block processing: full 8-byte words, then the final word
holding the remaining bytes and `len mod 256` in the top byte, the
`0xff` finalization xor and d = 3 rounds. -/
def sipBlocks (len : Nat) : SipState → List Nat → Nat
  | s, b0 :: b1 :: b2 :: b3 :: b4 :: b5 :: b6 :: b7 :: rest =>
      sipBlocks len (sipCompress s (leWordVal [ b0, b1, b2, b3, b4, b5, b6, b7 ])) rest
  | s, rest =>
      let b := leWordVal rest + len % 256 * 2 ^ 56
      let s1 := sipCompress s b
      let s2 : SipState := ⟨s1.v0, s1.v1, wxor s1.v2 0xff, s1.v3⟩
      let s3 := sipRound (sipRound (sipRound s2))
      wxor (wxor s3.v0 s3.v1) (wxor s3.v2 s3.v3)

/-- The SipHash initial state for the zero key used by
`DefaultHasher::new()`. -/
def sipIV : SipState :=
  ⟨0x736f6d6570736575, 0x646f72616e646f6d, 0x6c7967656e657261, 0x7465646279746573⟩

/-- SipHash-1-3 with zero key of a byte stream: the value returned by
`DefaultHasher::finish` after writing the stream. -/
def sipHash13 (bs : List Nat) : Nat := sipBlocks bs.length sipIV bs

/-- `ClipboardEvent::calculate_hash`: feed the content through
`DefaultHasher` (`str::hash` writes the UTF-8 bytes followed by a `0xFF`
marker byte) and format the 64-bit result as lowercase hex. -/
def calculate_hash (content : List Char) : List Char :=
  Nat.toDigits 16 (sipHash13 ((content.map utf8CharBytes).flatten ++ [ 0xFF ]))

/-- `types.rs` `ClipboardEvent`. The `timestamp` of `chrono::Utc::now()`
is supplied as a parameter. -/
structure ClipboardEvent where
  content : List Char
  content_type : BasicContentType
  timestamp : Nat
  source_app : Option (List Char)
  content_hash : List Char
  content_length : Nat
deriving DecidableEq, Repr

/-- `ClipboardEvent::new`: clone the content, classify-supplied type,
current time, hash of the content, byte length of the content. -/
def ClipboardEvent.new (content : List Char) (content_type : BasicContentType)
    (source_app : Option (List Char)) (now : Nat) : ClipboardEvent :=
  { content := content
    content_type := content_type
    timestamp := now
    source_app := source_app
    content_hash := calculate_hash content
    content_length := rustLen content }

/-- `ContentDetector::create_event`: classify the content, then build the
event. -/
def create_event (content : List Char) (source_app : Option (List Char))
    (now : Nat) : ClipboardEvent :=
  ClipboardEvent.new content (detect content) source_app now

/-- `types.rs` `ClipboardError` (the constructors carry their message). -/
inductive ClipboardError where
  | AccessError (msg : String)
  | ParsingError (msg : String)
  | AnalysisTimeout
  | AiProcessingError (msg : String)
deriving DecidableEq, Repr

/-! ## MonitorConfig and the worker (monitor.rs) -/

/-- `monitor.rs` `MonitorConfig`. -/
structure MonitorConfig where
  min_content_length : Nat
  max_content_length : Nat
  ignore_duplicates : Bool
  ignore_short_content : Bool
  debounce_ms : Nat
  retry_max : Nat
  retry_initial_delay_ms : Nat
deriving DecidableEq, Repr

/-- `Default for MonitorConfig`. -/
def MonitorConfig.default : MonitorConfig :=
  { min_content_length := 1
    max_content_length := 100000
    ignore_duplicates := true
    ignore_short_content := false
    debounce_ms := 60
    retry_max := 8
    retry_initial_delay_ms := 10 }

/-- `monitor.rs` `ClipboardChange`, the envelope published on the bus. -/
structure ClipboardChange where
  event : ClipboardEvent
  is_duplicate : Bool
  source_detection_time_ms : Nat
deriving DecidableEq, Repr

/-- Result of `read_clipboard_with_retry`, instrumented with the number of
`get_text` calls made and the trace of `thread::sleep` delays (ms). -/
structure RetryTrace where
  result : Option (List Char)
  attemptsMade : Nat
  sleeps : List Nat
deriving DecidableEq, Repr

/-- The retry loop body: `env i` is the outcome of the i-th `get_text`
call (`none` = `ContentNotAvailable` or any other read error). On failure
the current delay is slept, then doubled and capped at 200 ms. -/
def readRetryAux (env : Nat → Option (List Char)) : Nat → Nat → Nat → RetryTrace
  | 0, _, _ => ⟨none, 0, []⟩
  | fuel + 1, i, delay =>
      match env i with
      | some s => ⟨some s, 1, []⟩
      | none =>
          let t := readRetryAux env fuel (i + 1) (min (delay * 2) 200)
          ⟨t.result, t.attemptsMade + 1, delay :: t.sleeps⟩

/-- `read_clipboard_with_retry`: at most `retry_max` attempts, starting
delay `max initial_delay_ms 1`. -/
def read_clipboard_with_retry (env : Nat → Option (List Char))
    (retry_max : Nat) (initial_delay_ms : Nat) : RetryTrace :=
  readRetryAux env retry_max 0 (max initial_delay_ms 1)

/-- The backoff delay sequence: start at `d`, double and cap at 200 each
step. -/
def backoffList (d : Nat) : Nat → List Nat
  | 0 => []
  | n + 1 => d :: backoffList (min (d * 2) 200) n

/-- One worker cycle's environment: the read oracle for this cycle's
retry loop, the event-creation time and the measured detection time. -/
structure CycleInput where
  attempts : Nat → Option (List Char)
  now : Nat
  detectionMs : Nat

/-- The clipboard text this cycle's `read_clipboard_with_retry` produces
under `cfg`. -/
def readRes (cfg : MonitorConfig) (cyc : CycleInput) : Option (List Char) :=
  (read_clipboard_with_retry cyc.attempts cfg.retry_max cfg.retry_initial_delay_ms).result

/-- The filter-and-emit block of `run_worker` for one successfully read
content. The state is `last_content`; the returned option is the change
published to the event bus (`event_sender.send`). Filter order follows
the source: min length, max length, empty-after-trim, duplicate (when
`ignore_duplicates`), short-after-trim (when `ignore_short_content`). -/
def processContent (cfg : MonitorConfig) (st : Option (List Char))
    (content : List Char) (now dms : Nat) :
    Option (List Char) × Option ClipboardChange :=
  if rustLen content < cfg.min_content_length then (st, none)
  else if rustLen content > cfg.max_content_length then (st, none)
  else
    let trimmed := rustTrim content
    if trimmed.isEmpty then (st, none)
    else if cfg.ignore_duplicates = true ∧ st = some content then (st, none)
    else if cfg.ignore_short_content = true ∧ rustLen trimmed ≤ 1 then (st, none)
    else
      (some content,
       some { event := create_event content none now
              is_duplicate := false
              source_detection_time_ms := dms })

/-- One full worker cycle: read with retry, then filter and emit. A read
failure skips the cycle and leaves the state untouched. -/
def workerStep (cfg : MonitorConfig) (st : Option (List Char))
    (cyc : CycleInput) : Option (List Char) × Option ClipboardChange :=
  match readRes cfg cyc with
  | none => (st, none)
  | some content => processContent cfg st content cyc.now cyc.detectionMs

/-- The worker loop of `run_worker` over a sequence of pulse cycles
(debounce timing abstracted into the cycle sequence), collecting the
changes published to the bus. `run_worker` starts with
`last_content = None`, so a whole run is `runWorker cfg none cycles`. -/
def runWorker (cfg : MonitorConfig) : Option (List Char) → List CycleInput → List ClipboardChange
  | _, [] => []
  | st, cyc :: rest =>
      ((workerStep cfg st cyc).2).toList ++ runWorker cfg (workerStep cfg st cyc).1 rest

/-! ## Observer registration and monitor lifecycle (monitor.rs) -/

/-- A message delivered to the Win32 message loop. -/
inductive WinMsg where
  | clipboardUpdate
  | other (code : Nat)

/-- Outcomes of the OS calls made by `run_windows_message_loop`, plus the
messages the loop would drain after successful registration. -/
structure OsEnv where
  registerClassOk : Bool
  createWindowOk : Bool
  addListenerOk : Bool
  messages : List WinMsg

/-- What a run of the message-loop thread produced: its `Result`, and the
number of pulse send attempts made to the worker (one per
`WM_CLIPBOARDUPDATE` handled by `window_proc`). -/
structure LoopOutcome where
  result : Except String Unit
  pulses : Nat

/-- Pulses produced by draining a message list: one per clipboard-update
message. -/
def countPulses (msgs : List WinMsg) : Nat :=
  (msgs.filter (fun m => match m with | WinMsg.clipboardUpdate => true | _ => false)).length

/-- `ClipboardMonitor::run_windows_message_loop`: register the window
class, create the hidden window, register the clipboard listener — each
failure returns the corresponding error before any message is processed —
then drain the message queue. -/
def run_windows_message_loop (os : OsEnv) : LoopOutcome :=
  if os.registerClassOk = false then ⟨Except.error "Register window class failed", 0⟩
  else if os.createWindowOk = false then ⟨Except.error "Create window failed", 0⟩
  else if os.addListenerOk = false then ⟨Except.error "Register clipboard listener failed", 0⟩
  else ⟨Except.ok (), countPulses os.messages⟩

/-- The supervisor-visible fields of `ClipboardMonitor`. The broadcast
channel is created once in `new` and carried unchanged; it is identified
by `eventBusGen`. -/
structure ClipboardMonitor where
  config : MonitorConfig
  eventBusGen : Nat
  controlActive : Bool
  startTime : Option Nat
  is_running : Bool
deriving DecidableEq, Repr

/-- `ClipboardMonitor::new`: store the config (or the default), create
the event channel, no control channel, not running. -/
def ClipboardMonitor.new (cfg : Option MonitorConfig) : ClipboardMonitor :=
  { config := cfg.getD MonitorConfig.default
    eventBusGen := 0
    controlActive := false
    startTime := none
    is_running := false }

/-- What `start_monitoring` hands out and spawns: the subscription to the
bus, the fresh worker thread's `last_content` state, and the outcome of
the spawned message-loop thread (which `start_monitoring` never
inspects). -/
structure StartedSession where
  receiver : Nat
  workerLastContent : Option (List Char)
  loopOutcome : LoopOutcome

/-- `ClipboardMonitor::start_monitoring`: reject when already running;
otherwise set the running state, subscribe, spawn the worker (fresh
`last_content = None`) and the message-loop thread, and return the
receiver. The loop thread's errors are only logged, never returned. -/
def start_monitoring (m : ClipboardMonitor) (now : Nat) (os : OsEnv) :
    Except ClipboardError (ClipboardMonitor × StartedSession) :=
  if m.is_running then Except.error (ClipboardError.AccessError "Monitor is already running")
  else
    Except.ok
      ({ m with startTime := some now, is_running := true, controlActive := true },
       { receiver := m.eventBusGen
         workerLastContent := none
         loopOutcome := run_windows_message_loop os })

/-- `ClipboardMonitor::stop_monitoring_sync`: reject when not running;
otherwise send Stop (tearing the session down), drop the control sender,
clear the start time and the running flag. -/
def stop_monitoring_sync (m : ClipboardMonitor) : Except ClipboardError ClipboardMonitor :=
  if m.is_running = false then Except.error (ClipboardError.AccessError "Monitor is not running")
  else Except.ok { m with controlActive := false, startTime := none, is_running := false }

/-- Boolean success test for `Except`. -/
def isOkB {ε α : Type} : Except ε α → Bool
  | Except.ok _ => true
  | Except.error _ => false

/-- The comparison the spec calls "the length checks" of the worker: the
two leading rejection tests of `processContent`. -/
def lengthAccepted (cfg : MonitorConfig) (c : List Char) : Bool :=
  !decide (rustLen c < cfg.min_content_length) && !decide (rustLen c > cfg.max_content_length)

/-! ## Concrete fixtures used by witnesses and counterexamples -/

/-- A cycle whose first read attempt already returns `s`. -/
def cycOf (s : String) : CycleInput :=
  { attempts := fun _ => some s.data, now := 0, detectionMs := 0 }

/-- Config with `max_content_length = 2` for the boundary analysis of the
length filter. -/
def c2cfg : MonitorConfig := { MonitorConfig.default with max_content_length := 2 }

/-- Config with `max_content_length = 2` for the byte-length analysis. -/
def c10cfg : MonitorConfig := { MonitorConfig.default with max_content_length := 2 }

/-- Config with `retry_max = 0`. -/
def c9cfg : MonitorConfig := { MonitorConfig.default with retry_max := 0 }

/-- A read oracle that always fails. -/
def c5failEnv : Nat → Option (List Char) := fun _ => none

/-- A read oracle that fails once, then succeeds. -/
def c5env : Nat → Option (List Char) := fun i => if i = 1 then some [ 'a' ] else none

/-- An OS environment whose window-class registration fails. -/
def osRegFail : OsEnv :=
  { registerClassOk := false, createWindowOk := true, addListenerOk := true, messages := [] }

/-- The cycle reading "hello", for the duplicate-suppression witness. -/
def c6cyc : CycleInput := cycOf "hello"

/-- The change the worker publishes for a first read of "hello" under the
default config. -/
def c6ch : ClipboardChange :=
  { event := ClipboardEvent.new "hello".data (detect "hello".data) none 0
    is_duplicate := false
    source_detection_time_ms := 0 }

/-- The cycle reading "hi", for the is_duplicate witness. -/
def c7cyc : CycleInput := cycOf "hi"

/-- The change the worker publishes for a first read of "hi" under the
default config. -/
def c7ch : ClipboardChange :=
  { event := ClipboardEvent.new "hi".data (detect "hi".data) none 0
    is_duplicate := false
    source_detection_time_ms := 0 }

/-- Config with `ignore_short_content = true` for the trimmed-byte-length
filter witness. -/
def c10cfg2 : MonitorConfig := { MonitorConfig.default with ignore_short_content := true }

/-! ## Helper lemmas -/

lemma processContent_emit (cfg : MonitorConfig) (st : Option (List Char))
    (c : List Char) (now dms : Nat) (st' : Option (List Char)) (ch : ClipboardChange)
    (h : processContent cfg st c now dms = (st', some ch)) :
    st' = some c ∧
      ch = { event := create_event c none now
             is_duplicate := false
             source_detection_time_ms := dms } := by
  simp only [processContent] at h
  split_ifs at h <;> simp_all [Prod.ext_iff]

lemma workerStep_emit (cfg : MonitorConfig) (st : Option (List Char))
    (cyc : CycleInput) (st' : Option (List Char)) (ch : ClipboardChange)
    (h : workerStep cfg st cyc = (st', some ch)) :
    ∃ c, readRes cfg cyc = some c ∧ st' = some c ∧
      ch = { event := create_event c none cyc.now
             is_duplicate := false
             source_detection_time_ms := cyc.detectionMs } := by
  unfold workerStep at h
  cases hr : readRes cfg cyc with
  | none => rw [hr] at h; simp [Prod.ext_iff] at h
  | some c =>
      rw [hr] at h
      exact ⟨c, rfl, processContent_emit _ _ _ _ _ _ _ h⟩

lemma processContent_dup (cfg : MonitorConfig) (st : Option (List Char))
    (c : List Char) (now dms : Nat)
    (h1 : cfg.ignore_duplicates = true) (h2 : st = some c) :
    processContent cfg st c now dms = (st, none) := by
  simp only [processContent]
  split_ifs with g1 g2 g3 g4 g5 <;> first | rfl | exact absurd ⟨h1, h2⟩ g4

lemma workerStep_dup (cfg : MonitorConfig) (st : Option (List Char))
    (cyc : CycleInput) (c : List Char)
    (h1 : cfg.ignore_duplicates = true) (hr : readRes cfg cyc = some c)
    (h2 : st = some c) : workerStep cfg st cyc = (st, none) := by
  unfold workerStep
  rw [hr]
  exact processContent_dup cfg st c cyc.now cyc.detectionMs h1 h2

/-! ## Claim theorems -/

/-- C1: the classifier assigns exactly one category by testing the rules
in the fixed order URL, Email, Financial, DateTime, Phone, Code, Address
with PlainText as the default, first match winning (`detect` coincides
with the first-match evaluation of the ordered spec table); `is_phone`
rejects any string containing a colon; `"14:30"` is classified DateTime
and `"https://a.com"` is classified Url. -/
theorem c1_classifier_order :
  (∀ content : List Char, detect content = firstMatchSpec content) ∧
  (∀ l : List Char, l.contains ':' = true → is_phone l = false) ∧
  detect "14:30".data = BasicContentType.DateTime ∧
  detect "https://a.com".data = BasicContentType.Url := by
  refine ⟨fun c => rfl, ?_, by decide, by decide⟩
  intro l h
  simp only [is_phone, h]
  split_ifs <;> rfl

/-- C1 witness: a concrete colon-containing string is not a phone, via the
colon conjunct of `c1_classifier_order`. -/
theorem c1_classifier_order_witness :
  "12:3456789".data.contains ':' = true ∧ is_phone "12:3456789".data = false :=
  ⟨by decide, c1_classifier_order.2.1 "12:3456789".data (by decide)⟩

/-- C4: `content_hash` is a pure function of `content` alone — any two
events built from equal content carry equal hashes, whatever the type,
source app or timestamp; the hash is exactly `calculate_hash content`. -/
theorem c4_content_hash_pure :
  ∀ (content : List Char) (ct1 ct2 : BasicContentType)
    (sa1 sa2 : Option (List Char)) (t1 t2 : Nat),
    (ClipboardEvent.new content ct1 sa1 t1).content_hash =
      (ClipboardEvent.new content ct2 sa2 t2).content_hash ∧
    (ClipboardEvent.new content ct1 sa1 t1).content_hash = calculate_hash content :=
  fun _ _ _ _ _ _ _ => ⟨rfl, rfl⟩

/-- C7: every change the worker publishes carries `is_duplicate = false`. -/
theorem c7_emitted_not_duplicate :
  ∀ (cfg : MonitorConfig) (st : Option (List Char)) (cycles : List CycleInput)
    (ch : ClipboardChange), ch ∈ runWorker cfg st cycles → ch.is_duplicate = false := by
  intro cfg st cycles
  induction cycles generalizing st with
  | nil => intro ch h; simp [runWorker] at h
  | cons cyc rest ih =>
      intro ch h
      simp only [runWorker, List.mem_append] at h
      rcases h with h | h
      · cases hs : (workerStep cfg st cyc).2 with
        | none => rw [hs] at h; simp at h
        | some ch2 =>
            rw [hs] at h
            have hch2 : ch = ch2 := by simpa using h
            subst hch2
            have hfull : workerStep cfg st cyc = ((workerStep cfg st cyc).1, some ch) := by
              rw [← hs]
            obtain ⟨c, _, _, hch⟩ := workerStep_emit _ _ _ _ _ hfull
            rw [hch]
      · exact ih _ _ h

/-- C7 witness: a concrete emitted change, fed through
`c7_emitted_not_duplicate`. -/
theorem c7_emitted_not_duplicate_witness :
  c7ch ∈ runWorker MonitorConfig.default none [ c7cyc ] ∧ c7ch.is_duplicate = false := by
  have he : runWorker MonitorConfig.default none [ c7cyc ] = [ c7ch ] := rfl
  have hm : c7ch ∈ runWorker MonitorConfig.default none [ c7cyc ] := by
    rw [he]; exact List.mem_singleton_self _
  exact ⟨hm, c7_emitted_not_duplicate MonitorConfig.default none [ c7cyc ] c7ch hm⟩

/-- C6: with `ignore_duplicates = true`, a read equal to the previous
accepted content is suppressed (state and output unchanged), each
accepted event updates the previous-accepted-content state to its
content, and a pair of consecutive identical reads whose first member is
accepted publishes exactly one change. -/
theorem c6_duplicate_suppression :
  (∀ (cfg : MonitorConfig) (st : Option (List Char)) (cyc : CycleInput)
     (st' : Option (List Char)) (ch : ClipboardChange),
     workerStep cfg st cyc = (st', some ch) → st' = some ch.event.content) ∧
  (∀ (cfg : MonitorConfig) (st : Option (List Char)) (cyc : CycleInput) (c : List Char),
     cfg.ignore_duplicates = true → readRes cfg cyc = some c → st = some c →
     workerStep cfg st cyc = (st, none)) ∧
  (∀ (cfg : MonitorConfig) (st : Option (List Char)) (cyc1 cyc2 : CycleInput)
     (st1 : Option (List Char)) (ch : ClipboardChange),
     cfg.ignore_duplicates = true →
     workerStep cfg st cyc1 = (st1, some ch) →
     readRes cfg cyc2 = some ch.event.content →
     runWorker cfg st [ cyc1, cyc2 ] = [ ch ]) := by
  refine ⟨?_, ?_, ?_⟩
  · intro cfg st cyc st' ch h
    obtain ⟨c, _, hst, hch⟩ := workerStep_emit _ _ _ _ _ h
    rw [hst, hch]
    rfl
  · intro cfg st cyc c h1 hr h2
    exact workerStep_dup cfg st cyc c h1 hr h2
  · intro cfg st cyc1 cyc2 st1 ch hdup h1 h2
    obtain ⟨c, hr, hst1, hch⟩ := workerStep_emit _ _ _ _ _ h1
    have hcontent : ch.event.content = c := by subst hch; rfl
    rw [hcontent] at h2
    have h3 : workerStep cfg st1 cyc2 = (st1, none) :=
      workerStep_dup cfg st1 cyc2 c hdup h2 hst1
    simp [runWorker, h1, h3]

/-- C6 witness: two consecutive reads of "hello" under the default config
publish exactly one change, via the pair conjunct of
`c6_duplicate_suppression`. -/
theorem c6_duplicate_suppression_witness :
  runWorker MonitorConfig.default none [ c6cyc, c6cyc ] = [ c6ch ] :=
  c6_duplicate_suppression.2.2 MonitorConfig.default none c6cyc c6cyc
    (some "hello".data) c6ch rfl rfl rfl

lemma readRetryAux_attempts_le (env : Nat → Option (List Char)) :
    ∀ (fuel i d : Nat), (readRetryAux env fuel i d).attemptsMade ≤ fuel := by
  intro fuel
  induction fuel with
  | zero => intro i d; simp [readRetryAux]
  | succ n ih =>
      intro i d
      simp only [readRetryAux]
      cases henv : env i with
      | some s => simp
      | none =>
          simp only []
          exact Nat.succ_le_succ (ih (i + 1) (min (d * 2) 200))

lemma readRetryAux_allFail (env : Nat → Option (List Char)) :
    ∀ (fuel i d : Nat), (∀ j, j < fuel → env (i + j) = none) →
      readRetryAux env fuel i d = ⟨none, fuel, backoffList d fuel⟩ := by
  intro fuel
  induction fuel with
  | zero => intro i d _; rfl
  | succ n ih =>
      intro i d h
      have h0 : env i = none := by simpa using h 0 (Nat.succ_pos n)
      have hrec : readRetryAux env n (i + 1) (min (d * 2) 200) =
          ⟨none, n, backoffList (min (d * 2) 200) n⟩ := by
        apply ih
        intro j hj
        have h1 := h (j + 1) (by omega)
        have h2 : i + (j + 1) = i + 1 + j := by omega
        rwa [h2] at h1
      simp only [readRetryAux, h0, hrec]
      rfl

lemma readRetryAux_firstSucc (env : Nat → Option (List Char)) :
    ∀ (k fuel i d : Nat) (s : List Char), k < fuel → env (i + k) = some s →
      (∀ j, j < k → env (i + j) = none) →
      readRetryAux env fuel i d = ⟨some s, k + 1, backoffList d k⟩ := by
  intro k
  induction k with
  | zero =>
      intro fuel i d s hk hs _
      cases fuel with
      | zero => omega
      | succ n =>
          have h0 : env i = some s := by simpa using hs
          simp [readRetryAux, h0, backoffList]
  | succ k ih =>
      intro fuel i d s hk hs hfail
      cases fuel with
      | zero => omega
      | succ n =>
          have h0 : env i = none := by simpa using hfail 0 (by omega)
          have hrec : readRetryAux env n (i + 1) (min (d * 2) 200) =
              ⟨some s, k + 1, backoffList (min (d * 2) 200) k⟩ := by
            apply ih n (i + 1) (min (d * 2) 200) s (by omega)
            · have h1 := hs
              have h2 : i + (k + 1) = i + 1 + k := by omega
              rwa [h2] at h1
            · intro j hj
              have h1 := hfail (j + 1) (by omega)
              have h2 : i + (j + 1) = i + 1 + j := by omega
              rwa [h2] at h1
          simp only [readRetryAux, h0, hrec]
          rfl

lemma processContent_length_reject (cfg : MonitorConfig) (st : Option (List Char))
    (c : List Char) (now dms : Nat)
    (h : rustLen c < cfg.min_content_length ∨ rustLen c > cfg.max_content_length) :
    processContent cfg st c now dms = (st, none) := by
  rcases h with h | h
  · simp only [processContent]
    split_ifs
    rfl
  · simp only [processContent]
    split_ifs <;> rfl

lemma processContent_short_reject (cfg : MonitorConfig) (st : Option (List Char))
    (c : List Char) (now dms : Nat)
    (h1 : cfg.ignore_short_content = true) (h2 : rustLen (rustTrim c) ≤ 1) :
    processContent cfg st c now dms = (st, none) := by
  simp only [processContent]
  split_ifs with g1 g2 g3 g4 g5 <;> first | rfl | exact absurd ⟨h1, h2⟩ g5

/-- C5 (amended): the retry loop makes at most `retry_max` read attempts;
when every attempt fails it returns no content after sleeping the backoff
sequence that starts at `max retry_initial_delay_ms 1` and doubles with a
200 ms cap; when attempt `k` is the first success it returns that text
after `k + 1` attempts and `k` backoff sleeps; and a cycle whose read
returns no content emits nothing, leaves the state alone, and the worker
goes on with the remaining cycles. -/
theorem c5_retry_backoff :
  (∀ (env : Nat → Option (List Char)) (rm init : Nat),
     (read_clipboard_with_retry env rm init).attemptsMade ≤ rm) ∧
  (∀ (env : Nat → Option (List Char)) (rm init : Nat),
     (∀ j, j < rm → env j = none) →
     read_clipboard_with_retry env rm init = ⟨none, rm, backoffList (max init 1) rm⟩) ∧
  (∀ (env : Nat → Option (List Char)) (rm init k : Nat) (s : List Char),
     k < rm → env k = some s → (∀ j, j < k → env j = none) →
     read_clipboard_with_retry env rm init = ⟨some s, k + 1, backoffList (max init 1) k⟩) ∧
  (∀ (cfg : MonitorConfig) (st : Option (List Char)) (cyc : CycleInput)
     (rest : List CycleInput),
     readRes cfg cyc = none → runWorker cfg st (cyc :: rest) = runWorker cfg st rest) := by
  refine ⟨?_, ?_, ?_, ?_⟩
  · intro env rm init
    exact readRetryAux_attempts_le env rm 0 (max init 1)
  · intro env rm init h
    exact readRetryAux_allFail env rm 0 (max init 1) (fun j hj => by simpa using h j hj)
  · intro env rm init k s hk hs hf
    exact readRetryAux_firstSucc env k rm 0 (max init 1) s hk (by simpa using hs)
      (fun j hj => by simpa using hf j hj)
  · intro cfg st cyc rest h
    have hw : workerStep cfg st cyc = (st, none) := by
      unfold workerStep
      rw [h]
    simp [runWorker, hw]

/-- C5 counterexample: with `retry_initial_delay_ms = 0` and two failing
attempts the slept delays are `[1, 2]`, not the `[0, 0]` a backoff
starting at the configured value would give. -/
theorem c5_initial_delay_cex :
  (read_clipboard_with_retry c5failEnv 2 0).sleeps = [ 1, 2 ] ∧
  (read_clipboard_with_retry c5failEnv 2 0).sleeps ≠ [ 0, 0 ] := by
  exact ⟨rfl, by decide⟩

/-- C5 witness: one failure then a success under `retry_max = 3`,
`retry_initial_delay_ms = 10`: the first text read is returned after two
attempts and a single 10 ms sleep. -/
theorem c5_retry_backoff_witness :
  read_clipboard_with_retry c5env 3 10 = ⟨some [ 'a' ], 2, [ 10 ]⟩ :=
  c5_retry_backoff.2.2.1 c5env 3 10 1 [ 'a' ] (by omega) rfl
    (fun j hj => by
      have hj0 : j = 0 := by omega
      subst hj0
      rfl)

/-- C9: with `retry_max = 0` the retry function makes no read attempt and
returns no content, and the worker never emits any event, whatever the
pulses and reads. -/
theorem c9_zero_retries :
  (∀ (env : Nat → Option (List Char)) (init : Nat),
     read_clipboard_with_retry env 0 init = ⟨none, 0, []⟩) ∧
  (∀ (cfg : MonitorConfig) (st : Option (List Char)) (cycles : List CycleInput),
     cfg.retry_max = 0 → runWorker cfg st cycles = []) := by
  refine ⟨fun env init => rfl, ?_⟩
  intro cfg st cycles h
  induction cycles generalizing st with
  | nil => rfl
  | cons cyc rest ih =>
      have hr : readRes cfg cyc = none := by
        unfold readRes read_clipboard_with_retry
        rw [h]
        rfl
      have hw : workerStep cfg st cyc = (st, none) := by
        unfold workerStep
        rw [hr]
      simp [runWorker, hw, ih]

/-- C9 witness: a worker run with `retry_max = 0` over one pulse whose
clipboard would read "x" emits nothing. -/
theorem c9_zero_retries_witness :
  runWorker c9cfg none [ cycOf "x" ] = [] :=
  c9_zero_retries.2 c9cfg none [ cycOf "x" ] rfl

/-- C2 (amended): the worker's length checks are inclusive on both ends —
they accept exactly the contents with
`min_content_length ≤ len ≤ max_content_length`; in particular content
whose length equals `max_content_length` passes them (whenever
`min ≤ max`), and content failing them produces no event and leaves the
dedup state unchanged. -/
theorem c2_length_bounds_inclusive :
  (∀ (cfg : MonitorConfig) (c : List Char),
     lengthAccepted cfg c = true ↔
       cfg.min_content_length ≤ rustLen c ∧ rustLen c ≤ cfg.max_content_length) ∧
  (∀ (cfg : MonitorConfig) (c : List Char),
     rustLen c = cfg.max_content_length →
     cfg.min_content_length ≤ cfg.max_content_length →
     lengthAccepted cfg c = true) ∧
  (∀ (cfg : MonitorConfig) (st : Option (List Char)) (c : List Char) (now dms : Nat),
     lengthAccepted cfg c = false → processContent cfg st c now dms = (st, none)) ∧
  (∀ (cfg : MonitorConfig) (st : Option (List Char)) (cyc : CycleInput) (c : List Char),
     readRes cfg cyc = some c → lengthAccepted cfg c = false →
     workerStep cfg st cyc = (st, none)) := by
  refine ⟨?_, ?_, ?_, ?_⟩
  · intro cfg c
    simp [lengthAccepted]
  · intro cfg c h1 h2
    simp [lengthAccepted]
    omega
  · intro cfg st c now dms h
    apply processContent_length_reject
    simp [lengthAccepted] at h
    omega
  · intro cfg st cyc c hr h
    have h2 : processContent cfg st c cyc.now cyc.detectionMs = (st, none) := by
      apply processContent_length_reject
      simp [lengthAccepted] at h
      omega
    unfold workerStep
    rw [hr]
    exact h2

/-- C2 counterexample: under `max_content_length = 2`, reading "ab"
(byte length exactly 2 = max) passes the length checks and an event is
published — the claim's strict upper bound would have rejected it. -/
theorem c2_len_eq_max_emits_cex :
  rustLen "ab".data = c2cfg.max_content_length ∧
  (runWorker c2cfg none [ cycOf "ab" ]).length = 1 :=
  ⟨rfl, rfl⟩

/-- C2 witness: a concrete over-long read ("abc" with `max = 2`) is
dropped by the worker, via the last conjunct of
`c2_length_bounds_inclusive`. -/
theorem c2_length_bounds_witness :
  workerStep c2cfg none (cycOf "abc") = (none, none) :=
  c2_length_bounds_inclusive.2.2.2 c2cfg none (cycOf "abc") "abc".data rfl (by decide)

/-- C10: `content_length` is the UTF-8 byte length of the content, not
its char count ("你好" has byte length 6 but 2 chars); the min/max filters
and the short-content filter of the worker also compare byte lengths, so
a one-char, three-byte read is rejected by a two-byte maximum. -/
theorem c10_byte_length_semantics :
  (∀ (c : List Char) (ct : BasicContentType) (sa : Option (List Char)) (now : Nat),
     (ClipboardEvent.new c ct sa now).content_length = rustLen c) ∧
  (rustLen "你好".data = 6 ∧ ("你好".data).length = 2) ∧
  (∀ (cfg : MonitorConfig) (st : Option (List Char)) (cyc : CycleInput) (c : List Char),
     readRes cfg cyc = some c → rustLen c < cfg.min_content_length →
     workerStep cfg st cyc = (st, none)) ∧
  (∀ (cfg : MonitorConfig) (st : Option (List Char)) (cyc : CycleInput) (c : List Char),
     readRes cfg cyc = some c → rustLen c > cfg.max_content_length →
     workerStep cfg st cyc = (st, none)) ∧
  (∀ (cfg : MonitorConfig) (st : Option (List Char)) (cyc : CycleInput) (c : List Char),
     readRes cfg cyc = some c → cfg.ignore_short_content = true →
     rustLen (rustTrim c) ≤ 1 → workerStep cfg st cyc = (st, none)) ∧
  (workerStep c10cfg none (cycOf "你") = (none, none) ∧
   ("你".data).length ≤ c10cfg.max_content_length ∧
   rustLen "你".data > c10cfg.max_content_length) := by
  refine ⟨fun _ _ _ _ => rfl, ⟨by decide, by decide⟩, ?_, ?_, ?_, rfl, by decide, by decide⟩
  · intro cfg st cyc c hr h
    unfold workerStep
    rw [hr]
    exact processContent_length_reject cfg st c cyc.now cyc.detectionMs (Or.inl h)
  · intro cfg st cyc c hr h
    unfold workerStep
    rw [hr]
    exact processContent_length_reject cfg st c cyc.now cyc.detectionMs (Or.inr h)
  · intro cfg st cyc c hr h1 h2
    unfold workerStep
    rw [hr]
    exact processContent_short_reject cfg st c cyc.now cyc.detectionMs h1 h2

/-- C10 witness: with `ignore_short_content = true`, the one-byte read
"a" (trimmed byte length 1) is dropped, via the short-filter conjunct of
`c10_byte_length_semantics`. -/
theorem c10_byte_length_witness :
  workerStep c10cfg2 none (cycOf "a") = (none, none) :=
  c10_byte_length_semantics.2.2.2.2.1 c10cfg2 none (cycOf "a") "a".data rfl rfl (by decide)

/-- C3 (amended): when window-class registration, window creation or
clipboard-listener registration fails, the message-loop thread returns an
error and sends no pulse to the worker; but `start_monitoring` itself is
oblivious to those outcomes — whenever the monitor is not already
running it returns a subscription, so the failure is only logged on the
spawned thread, never reported synchronously to the caller. -/
theorem c3_registration_failure_async :
  (∀ os : OsEnv,
     os.registerClassOk = false ∨ os.createWindowOk = false ∨ os.addListenerOk = false →
     (∃ msg, (run_windows_message_loop os).result = Except.error msg) ∧
     (run_windows_message_loop os).pulses = 0) ∧
  (∀ (m : ClipboardMonitor) (now : Nat) (os : OsEnv),
     m.is_running = false → isOkB (start_monitoring m now os) = true) ∧
  (∀ (m : ClipboardMonitor) (now : Nat) (os os' : OsEnv),
     isOkB (start_monitoring m now os) = isOkB (start_monitoring m now os')) := by
  refine ⟨?_, ?_, ?_⟩
  · intro os h
    unfold run_windows_message_loop
    split_ifs with g1 g2 g3
    · exact ⟨⟨_, rfl⟩, rfl⟩
    · exact ⟨⟨_, rfl⟩, rfl⟩
    · exact ⟨⟨_, rfl⟩, rfl⟩
    · rcases h with h | h | h <;> simp_all
  · intro m now os h
    simp [start_monitoring, isOkB, h]
  · intro m now os os'
    by_cases h : m.is_running <;> simp [start_monitoring, isOkB, h]

/-- C3 counterexample: with failing window-class registration, the loop
thread errors, yet `start` still returns a subscription — the claim's
synchronous failure of `start` does not happen. -/
theorem c3_start_ok_despite_failure_cex :
  osRegFail.registerClassOk = false ∧
  isOkB (start_monitoring (ClipboardMonitor.new none) 0 osRegFail) = true ∧
  (run_windows_message_loop osRegFail).result =
    Except.error "Register window class failed" :=
  ⟨rfl, rfl, rfl⟩

/-- C3 witness: the failing-registration environment produces zero pulses
and a successful `start`, via `c3_registration_failure_async`. -/
theorem c3_registration_failure_witness :
  (run_windows_message_loop osRegFail).pulses = 0 ∧
  isOkB (start_monitoring (ClipboardMonitor.new none) 5 osRegFail) = true :=
  ⟨(c3_registration_failure_async.1 osRegFail (Or.inl rfl)).2,
   c3_registration_failure_async.2.1 (ClipboardMonitor.new none) 5 osRegFail rfl⟩

/-- C8: start, stop, start again: the stop succeeds, the restart
succeeds, the stopped monitor equals a freshly constructed one, the
restarted monitor equals the first started one (same clock), and both
sessions hand the worker a fresh `last_content = none` dedup state and a
subscription to the same bus created in `new`. -/
theorem c8_restart_is_fresh :
  ∀ (cfg : Option MonitorConfig) (now : Nat) (os os' : OsEnv),
    ∃ (m1 : ClipboardMonitor) (s1 : StartedSession) (m2 m3 : ClipboardMonitor)
      (s3 : StartedSession),
      start_monitoring (ClipboardMonitor.new cfg) now os = Except.ok (m1, s1) ∧
      stop_monitoring_sync m1 = Except.ok m2 ∧
      start_monitoring m2 now os' = Except.ok (m3, s3) ∧
      m2 = ClipboardMonitor.new cfg ∧
      m3 = m1 ∧
      s1.workerLastContent = none ∧
      s3.workerLastContent = none ∧
      s3.receiver = s1.receiver := by
  intro cfg now os os'
  exact ⟨_, _, _, _, _, rfl, rfl, rfl, rfl, rfl, rfl, rfl, rfl⟩
